import Mathlib

/-!
Shallow embedding of the real-time price streaming subsystem of the
Crypto-Real-Time-Dashboard repository, together with proofs checking the
natural-language specification against the code.

The two source modules embedded here are `app/ws_client.py` (class
`PriceStream`) and `app/websocket_manager.py` (class `WebSocketManager`,
with `ConnectionState` from `app/models.py`).

Modelling conventions:
* Python floats (timestamps and prices) are modelled as `ℚ`; all arithmetic
  appearing in the claims is exact at the inputs considered.
* `collections.deque(maxlen = N)` is modelled by `dequeAppend`: appending to
  a full deque silently discards the leftmost (oldest) element; a deque with
  `maxlen = 0` stays empty.
* Calls to `time.time()` are modelled by an explicit `now : ℚ` argument.
* The background thread / event loop is not executed; instead the pure state
  transitions that `start`, `stop` and the per-message receive-loop body
  perform on the shared fields are embedded as functions on a state record,
  and the receive loop over a list of inbound frames is a fold that can stop
  early exactly where the Python loop `break`s.
-/

namespace CryptoDash

/-- A sample is a `(timestamp in seconds, price)` pair, as appended by
`self.price_data.append((timestamp, price))` in both source modules. -/
abbrev Sample := ℚ × ℚ

/-- One `append` on a Python `collections.deque` created with `maxlen = N`:
if the deque is full the oldest (leftmost) element is discarded; a deque with
`maxlen = 0` discards every append. -/
def dequeAppend (N : ℕ) (buf : List Sample) (x : Sample) : List Sample :=
  if N = 0 then []
  else if buf.length < N then buf ++ [x]
  else buf.drop 1 ++ [x]

/-- The buffer contents after appending the samples `xs`, in order, to an
initially empty `deque(maxlen = N)`. -/
def bufferAfter (N : ℕ) (xs : List Sample) : List Sample :=
  xs.foldl (dequeAppend N) []

lemma dequeAppend_drop (N : ℕ) (l : List Sample) (x : Sample) :
    dequeAppend N (l.drop (l.length - N)) x =
      (l ++ [x]).drop ((l ++ [x]).length - N) := by
  unfold dequeAppend
  rcases Nat.eq_zero_or_pos N with hN | hN
  · subst hN
    simp
  · have hlen : (l.drop (l.length - N)).length = l.length - (l.length - N) := by
      simp [List.length_drop]
    by_cases hle : l.length < N
    · have h1 : l.length - N = 0 := Nat.sub_eq_zero_of_le (Nat.le_of_lt hle)
      have h2 : l.length + 1 - N = 0 := Nat.sub_eq_zero_of_le hle
      simp [h1, h2, Nat.ne_of_gt hN, hle, hlen]
    · push_neg at hle
      have hlen' : (l.drop (l.length - N)).length = N := by
        rw [hlen]; omega
      have hnotlt : ¬ (l.drop (l.length - N)).length < N := by omega
      rw [if_neg (Nat.ne_of_gt hN), if_neg hnotlt]
      have hd : (l.drop (l.length - N)).drop 1 = l.drop (l.length + 1 - N) := by
        rw [List.drop_drop]
        congr 1
        omega
      have hsub : l.length + 1 - N ≤ l.length := by omega
      rw [hd, List.length_append, List.length_singleton,
        List.drop_append_of_le_length hsub]

/-- After appending `k` samples, the deque holds exactly the last
`min k N` of them, i.e. the suffix obtained by dropping the first
`k - N`. -/
theorem bufferAfter_eq_drop (N : ℕ) (xs : List Sample) :
    bufferAfter N xs = xs.drop (xs.length - N) := by
  induction xs using List.reverseRecOn with
  | nil => simp [bufferAfter]
  | append_singleton l x ih =>
      have : bufferAfter N (l ++ [x]) = dequeAppend N (bufferAfter N l) x := by
        simp [bufferAfter, List.foldl_append]
      rw [this, ih, dequeAppend_drop]

/-! ## Inbound frames

The receive loops in both modules run, per frame,
`data = json.loads(message)`, `price = float(data["p"])`,
`timestamp = data["T"] / 1000`, catching
`(json.JSONDecodeError, KeyError, ValueError)`.  Not every failure raises
one of these: `float` applied to `None`, a list or a dict, and
subscripting a JSON-parseable non-object with `"p"`, raise `TypeError`,
which the tuple does not catch.  A frame is classified by which of these
outcomes its processing produces. -/

/-- The `"p"` field of a parsed frame:
* `parseable q` — a value `float` accepts (a number or a numeric string);
* `badStr` — a string `float` rejects: `ValueError`, which is caught;
* `typeErr` — a non-string non-numeric JSON value (`null`, array,
  object): `float` raises `TypeError`, which is not caught. -/
inductive PField where
  | parseable (q : ℚ)
  | badStr
  | typeErr
deriving DecidableEq, Repr

/-- An inbound frame as seen by the per-message parsing code. -/
inductive Frame where
  /-- `json.loads` raises `json.JSONDecodeError` (caught). -/
  | badJson
  /-- JSON-parseable but not an object (a list, string, number, …):
  `data["p"]` raises `TypeError`, which is not caught. -/
  | nonObj
  /-- A parsed JSON object with optional `"p"` and `"T"` fields
  (`data["p"]` / `data["T"]` raise `KeyError` when absent); `tms` is the
  event time in milliseconds. -/
  | obj (p : Option PField) (tms : Option ℚ)
deriving DecidableEq, Repr

/-- Outcome of processing one frame in the receive-loop body. -/
inductive ParseResult where
  /-- All three steps succeed; the sample is appended. -/
  | ok (s : Sample)
  /-- `json.JSONDecodeError`, `KeyError` or `ValueError`: caught by the
  except clause, logged, and the frame skipped. -/
  | caught
  /-- `TypeError`: not in the except clause; it escapes the per-frame
  handler. -/
  | uncaught
deriving DecidableEq, Repr

/-- The per-frame parse, following the source's evaluation order:
`json.loads(message)`, then `float(data["p"])`, then `data["T"] / 1000`;
the first failing step decides the outcome. -/
def parseFrame : Frame → ParseResult
  | Frame.badJson => ParseResult.caught
  | Frame.nonObj => ParseResult.uncaught
  | Frame.obj p tms =>
    match p, tms with
    | none, _ => ParseResult.caught
    | some PField.badStr, _ => ParseResult.caught
    | some PField.typeErr, _ => ParseResult.uncaught
    | some (PField.parseable _), none => ParseResult.caught
    | some (PField.parseable q), some t => ParseResult.ok (t / 1000, q)

/-- The samples of the frames whose processing succeeds, in order. -/
def okSamples (fs : List Frame) : List Sample :=
  fs.filterMap (fun f =>
    match parseFrame f with
    | ParseResult.ok s => some s
    | _ => none)

/-! ## PriceStream (`app/ws_client.py`)

The state record keeps the fields of `PriceStream.__init__` that the
lifecycle methods and accessors read or write.  The thread, event loop and
task handles are represented only by whether a websocket handle is held. -/

/-- The shared mutable fields of a `PriceStream` instance. -/
structure PriceStream where
  max_points : ℕ
  price_data : List Sample
  current_symbol : Option String
  running : Bool
  /-- `True` when `self.websocket` is not `None`. -/
  websocket : Bool
  /-- `True` when `self._stop_event` is set. -/
  stop_set : Bool
deriving DecidableEq, Repr

/-- `PriceStream.__init__(max_points)`. -/
def PriceStream.init (max_points : ℕ) : PriceStream :=
  { max_points := max_points
    price_data := []
    current_symbol := none
    running := false
    websocket := false
    stop_set := false }

/-- `PriceStream.stop()`: early-returns when not running; otherwise clears
`running`, signals the stop event, and immediately resets `current_symbol`
and `websocket` without waiting for the background thread.  It does not
touch `price_data`. -/
def PriceStream.stop (s : PriceStream) : PriceStream :=
  if s.running = false then s
  else
    { s with
      running := false
      stop_set := true
      current_symbol := none
      websocket := false }

/-- `PriceStream.start(symbol)`: a no-op when already running for the exact
same symbol string (`self.running and self.current_symbol == symbol`);
otherwise stops the existing stream, clears residual state, sets the new
symbol, sets `running`, clears `price_data`, and launches a fresh background
thread (which creates a fresh, unset stop event in `_run_event_loop`). -/
def PriceStream.start (s : PriceStream) (symbol : String) : PriceStream :=
  if s.running = true ∧ s.current_symbol = some symbol then s
  else
    let s' := s.stop
    { s' with
      websocket := false
      current_symbol := some symbol
      running := true
      price_data := []
      stop_set := false }

/-- `PriceStream.get_series()`. -/
def PriceStream.get_series (s : PriceStream) : List ℚ × List ℚ :=
  if s.price_data = [] then ([], [])
  else (s.price_data.map Prod.fst, s.price_data.map Prod.snd)

/-- `PriceStream.get_latest_price()`. -/
def PriceStream.get_latest_price (s : PriceStream) : Option ℚ :=
  match s.price_data.getLast? with
  | none => none
  | some (_, p) => some p

/-- `PriceStream.get_price_change(window_seconds)` on a given buffer:
returns `none` with fewer than 2 samples, else scans the buffer newest
first and returns the percentage change against the first sample whose age
relative to `now` (`time.time()` in the source) is at least
`window_seconds`, or `none` when no sample qualifies. -/
def get_price_change (data : List Sample) (now window_seconds : ℚ) :
    Option ℚ :=
  if data.length < 2 then none
  else
    match data.getLast? with
    | none => none
    | some (_, current_price) =>
      match data.reverse.find? (fun s => window_seconds ≤ now - s.1) with
      | none => none
      | some (_, price) => some ((current_price - price) / price * 100)

/-- `PriceStream.get_price_change` reading the instance's buffer. -/
def PriceStream.get_price_change (s : PriceStream) (now window_seconds : ℚ) :
    Option ℚ :=
  CryptoDash.get_price_change s.price_data now window_seconds

/-- The body of `async for message in websocket` in
`PriceStream._connect_and_stream`, run over a list of inbound frames for the
connection's `symbol`: each iteration first breaks when stopped
(`not self.running` or the stop event is set), then breaks when
`self.current_symbol != symbol`, then parses the frame, appending the
sample on success and merely logging on a caught parse error.  An uncaught
`TypeError` propagates out of the loop (past the inner
`except ConnectionClosed` into the outer `except Exception`, which treats
it as a connection error and enters the backoff path), ending the receive
loop with the state as it stood. -/
def PriceStream.runMessages (s : PriceStream) (symbol : String) :
    List Frame → PriceStream
  | [] => s
  | f :: rest =>
    if s.running = false ∨ s.stop_set = true then s
    else if s.current_symbol ≠ some symbol then s
    else
      match parseFrame f with
      | ParseResult.caught => s.runMessages symbol rest
      | ParseResult.uncaught => s
      | ParseResult.ok sample =>
        { s with
          price_data := dequeAppend s.max_points s.price_data sample
          }.runMessages symbol rest

/-! ## WebSocketManager (`app/websocket_manager.py`, with
`ConnectionState` from `app/models.py`) -/

/-- Python `str.lower()`, as applied to the trading-pair symbols handled
here (which are ASCII): every character is lower-cased. -/
def pyLower (s : String) : String :=
  String.mk (s.data.map Char.toLower)

/-- The `ConnectionState` dataclass of `app/models.py`. -/
structure ConnectionState where
  status : String := "Disconnected"
  symbol : Option String := none
  last_update : ℚ := 0
  error_count : ℕ := 0
deriving DecidableEq, Repr

/-- The shared mutable fields of a `WebSocketManager` instance.  The thread
and event-loop handles are represented only by whether a websocket handle is
held and whether the stop event is set. -/
structure WSManager where
  max_price_history : ℕ
  price_history : List Sample
  current_price : Option ℚ
  connection_state : ConnectionState
  /-- `True` when `self._websocket` is not `None`. -/
  websocket : Bool
  running : Bool
  message_count : ℕ
  start_time : ℚ
  /-- `True` when `self._stop_event` is set. -/
  stop_set : Bool
deriving DecidableEq, Repr

/-- `WebSocketManager.__init__(max_price_history)`; `now` stands for the
`time.time()` call initialising `_start_time`. -/
def WSManager.init (max_price_history : ℕ) (now : ℚ) : WSManager :=
  { max_price_history := max_price_history
    price_history := []
    current_price := none
    connection_state := {}
    websocket := false
    running := false
    message_count := 0
    start_time := now
    stop_set := false }

/-- `WebSocketManager.stop()`: early-returns when not running; otherwise
clears `_running`, signals stop to the old event loop, and resets the
externally visible state to `status = "Disconnected"`, `symbol = None`,
`_websocket = None`, returning without waiting for the thread.  It does not
touch `_price_history` or `_current_price`. -/
def WSManager.stop (m : WSManager) : WSManager :=
  if m.running = false then m
  else
    { m with
      running := false
      stop_set := true
      connection_state :=
        { m.connection_state with status := "Disconnected", symbol := none }
      websocket := false }

/-- `WebSocketManager.start(symbol)`: a no-op when already running for the
same lower-cased symbol; otherwise stops the existing connection, installs
a fresh `ConnectionState("Connecting", symbol.lower(), time.time())` —
whose `error_count` takes the dataclass default `0` — sets `_running`,
resets `_start_time` and `_message_count`, clears `_price_history`, and
launches the background thread (whose `_run_websocket` creates a fresh,
unset stop event).  `_current_price` is not touched. -/
def WSManager.start (m : WSManager) (symbol : String) (now : ℚ) : WSManager :=
  if m.running = true ∧ m.connection_state.symbol = some (pyLower symbol) then m
  else
    let m' := m.stop
    { m' with
      connection_state :=
        { status := "Connecting"
          symbol := some (pyLower symbol)
          last_update := now
          error_count := 0 }
      running := true
      start_time := now
      message_count := 0
      price_history := []
      stop_set := false }

/-- `WebSocketManager.get_latest_price()`: reads the `_current_price` cache,
not the history buffer. -/
def WSManager.get_latest_price (m : WSManager) : Option ℚ :=
  m.current_price

/-- `WebSocketManager.get_series()`. -/
def WSManager.get_series (m : WSManager) : List ℚ × List ℚ :=
  if m.price_history = [] then ([], [])
  else (m.price_history.map Prod.fst, m.price_history.map Prod.snd)

/-- The body of `async for message in websocket` in
`WebSocketManager._message_handler`, run over a list of inbound frames:
each iteration breaks when `not self._running` or the stop event is set, and
otherwise parses the frame; on success it writes `_current_price`, appends
to `_price_history`, bumps `_message_count` and `last_update`; on a caught
parse error it `continue`s, and on any other exception — such as the
uncaught `TypeError` of a null/array/object price — the trailing
`except Exception` clause logs and `break`s, terminating the receive loop
with the state as it stood.  The `symbol` argument of `_message_handler`
names the symbol the connection was opened for; it is used only in the
update callback and in log lines — no guard compares it against the symbol
the manager currently wants.  (`now` stands for the `time.time()` written
to `last_update`.) -/
def WSManager.runMessages (m : WSManager) (_symbol : String) (now : ℚ) :
    List Frame → WSManager
  | [] => m
  | f :: rest =>
    if m.running = false ∨ m.stop_set = true then m
    else
      match parseFrame f with
      | ParseResult.caught => m.runMessages _symbol now rest
      | ParseResult.uncaught => m
      | ParseResult.ok sample =>
        { m with
          current_price := some sample.2
          price_history := dequeAppend m.max_price_history m.price_history sample
          message_count := m.message_count + 1
          connection_state :=
            { m.connection_state with last_update := now }
          }.runMessages _symbol now rest

/-! ## Reconnect backoff (`_connect_and_stream` / `_websocket_handler`)

Both modules run `backoff = 1`, `max_backoff = 30`; on each failed
connection attempt they wait `backoff` seconds and then set
`backoff = min(backoff * 2, max_backoff)`; on each successful connection
they reset `backoff = 1`.  `backoffRun b outcomes` returns the list of
waits performed, where `outcomes` records the attempts in order (`true` for
a successful connection, `false` for a failure) and `b` is the current
backoff value. -/

def backoffRun : ℕ → List Bool → List ℕ
  | _, [] => []
  | _, true :: rest => backoffRun 1 rest
  | b, false :: rest => b :: backoffRun (min (b * 2) 30) rest

/-- The waits performed over a whole connection history, starting from the
initial `backoff = 1`. -/
def backoffWaits (outcomes : List Bool) : List ℕ :=
  backoffRun 1 outcomes

/-! ## Helper lemmas for the backoff run -/

lemma min_double_cap (a : ℕ) : min (min a 30 * 2) 30 = min (a * 2) 30 := by
  omega

lemma backoffRun_replicate (j m : ℕ) :
    backoffRun (min (2 ^ m) 30) (List.replicate j false) =
      (List.range j).map (fun i => min (2 ^ (m + i)) 30) := by
  induction j generalizing m with
  | zero => simp [backoffRun]
  | succ j ih =>
      rw [List.replicate_succ, List.range_succ_eq_map]
      show min (2 ^ m) 30 :: backoffRun (min (min (2 ^ m) 30 * 2) 30)
            (List.replicate j false) = _
      rw [min_double_cap, show (2 : ℕ) ^ m * 2 = 2 ^ (m + 1) by ring, ih]
      simp only [List.map_cons, List.map_map]
      refine List.cons_eq_cons.mpr ⟨by simp, ?_⟩
      refine List.map_congr_left ?_
      intro a ha
      simp only [Function.comp_apply, Nat.succ_eq_add_one]
      congr 2
      omega

lemma backoffRun_through_success (pre : List Bool) (b : ℕ) (rest : List Bool) :
    backoffRun b (pre ++ true :: rest) =
      backoffRun b (pre ++ [true]) ++ backoffRun 1 rest := by
  induction pre generalizing b with
  | nil => simp [backoffRun]
  | cons o pre ih =>
      cases o with
      | true => simpa [backoffRun] using ih 1
      | false => simp [backoffRun, ih]

/-- C1 — bounded-buffer invariant: appending any sequence `xs` of samples to
a fresh `deque(maxlen = N)` (the `price_data` / `_price_history` buffer of
`PriceStream.__init__` / `WebSocketManager.__init__`) leaves exactly the
most recent `min k N` of the `k` samples, in insertion order with the
oldest evicted first, and in particular never more than `N` samples.
Quantifying over all `xs` settles the property after every intermediate
append as well. -/
theorem C1_buffer_capacity (N : ℕ) (xs : List Sample) :
    bufferAfter N xs = xs.drop (xs.length - N) ∧
    (bufferAfter N xs).length = min xs.length N ∧
    (bufferAfter N xs).length ≤ N := by
  refine ⟨bufferAfter_eq_drop N xs, ?_, ?_⟩ <;>
    rw [bufferAfter_eq_drop N xs, List.length_drop] <;> omega

/-- C4 — backoff growth and reset: starting from a fresh connection loop,
the wait before the k-th consecutive failure is `min (2 ^ (k - 1)) 30`
seconds (1, 2, 4, …, capped at 30); and after any successful connection the
waits of the following failure run restart at the same schedule, i.e. the
next failure waits 1 second again. -/
theorem C4_backoff_growth_and_reset (pre : List Bool) (j : ℕ) :
    backoffWaits (List.replicate j false) =
      (List.range j).map (fun i => min (2 ^ i) 30) ∧
    backoffWaits (pre ++ true :: List.replicate j false) =
      backoffWaits (pre ++ [true]) ++
        (List.range j).map (fun i => min (2 ^ i) 30) := by
  have base : backoffRun 1 (List.replicate j false) =
      (List.range j).map (fun i => min (2 ^ i) 30) := by
    have h := backoffRun_replicate j 0
    simpa using h
  constructor
  · exact base
  · rw [backoffWaits, backoffWaits, backoffRun_through_success, base]

/-! ## Helper lemmas for the windowed-change scan -/

lemma find?_reverse_last {p : Sample → Bool} (pre post : List Sample)
    (r : Sample) (hr : p r = true) (hpost : ∀ s ∈ post, p s = false) :
    (pre ++ r :: post).reverse.find? p = some r := by
  have h1 : post.reverse.find? p = none := by
    rw [List.find?_eq_none]
    intro x hx
    rw [List.mem_reverse] at hx
    simp [hpost x hx]
  rw [List.reverse_append, List.reverse_cons, List.append_assoc,
    List.find?_append, h1, Option.none_or, List.find?_append,
    List.find?_cons_of_pos _ hr]
  rfl

/-- C2 (amended) — windowed change: `get_price_change` returns `none` when
the buffer has fewer than two samples, and `none` when no sample is at
least `window_seconds` older than `now`; when the buffer splits as
`pre ++ ref :: post` with `ref` old enough and everything after it too
young, it returns `(latest_price - ref_price) / ref_price * 100` — `ref`
is the most recent old-enough sample.  On the samples
`[(0, 100), (30, 110), (61, 121)]` with `now = 61` and a 60-second window
the reference is `(0, 100)` (the sample `(30, 110)` is only 31 seconds
old), so the result is `21`, not the `10` the specification computes. -/
theorem C2_change_over (data pre post : List Sample)
    (now w tr pr tL pL : ℚ) :
    (data.length < 2 → get_price_change data now w = none) ∧
    ((∀ s ∈ data, now - s.1 < w) → get_price_change data now w = none) ∧
    (2 ≤ (pre ++ (tr, pr) :: post).length →
      (pre ++ (tr, pr) :: post).getLast? = some (tL, pL) →
      w ≤ now - tr →
      (∀ s ∈ post, now - s.1 < w) →
      get_price_change (pre ++ (tr, pr) :: post) now w =
        some ((pL - pr) / pr * 100)) ∧
    get_price_change [(0, 100), (30, 110), (61, 121)] 61 60 = some 21 := by
  refine ⟨?_, ?_, ?_, by norm_num [get_price_change, List.find?]⟩
  · intro h
    simp [get_price_change, h]
  · intro h
    unfold get_price_change
    by_cases hlen : data.length < 2
    · simp [hlen]
    · have hfind : data.reverse.find? (fun s => w ≤ now - s.1) = none := by
        rw [List.find?_eq_none]
        intro x hx
        rw [List.mem_reverse] at hx
        simp only [decide_eq_true_eq]
        exact not_le.mpr (by linarith [h x hx])
      rw [if_neg hlen]
      rcases hL : data.getLast? with _ | ⟨t, p⟩
      · rfl
      · rw [hfind]
  · intro hlen hlast href hpost
    have hr : (fun s : Sample => decide (w ≤ now - s.1)) (tr, pr) = true := by
      simp only [decide_eq_true_eq]
      exact href
    have hp : ∀ s ∈ post, (fun s : Sample => decide (w ≤ now - s.1)) s = false := by
      intro s hs
      simp only [decide_eq_false_iff_not, not_le]
      linarith [hpost s hs]
    unfold get_price_change
    rw [if_neg (by omega), hlast, find?_reverse_last pre post (tr, pr) hr hp]

/-- C2 — counterexample to the claimed example value: on the samples
`[(0, 100), (30, 110), (61, 121)]` with `now` equal to the last sample
time and a 60-second window, the code returns `21`, not `10`: the scan
accepts the first sample whose age is at least 60 seconds, which is
`(0, 100)`, while the number `10` claimed by the specification would
require the reference `(30, 110)`, a sample only 31 seconds old. -/
theorem C2_counterexample :
    get_price_change [(0, 100), (30, 110), (61, 121)] 61 60 ≠ some 10 ∧
    get_price_change [(0, 100), (30, 110), (61, 121)] 61 60 = some 21 := by
  constructor <;> norm_num [get_price_change, List.find?]

/-- C2 — witness: the amended theorem applied at the concrete inputs of the
specification example: a single-sample buffer yields `none`, and the
three-sample example yields `(121 - 100) / 100 * 100 = 21`. -/
theorem C2_change_over_witness :
    (([((0 : ℚ), (100 : ℚ))] : List Sample).length < 2 ∧
      get_price_change [(0, 100)] 61 60 = none) ∧
    ((2 ≤ (([] : List Sample) ++ ((0 : ℚ), (100 : ℚ)) ::
        [((30 : ℚ), (110 : ℚ)), ((61 : ℚ), (121 : ℚ))]).length) ∧
      get_price_change ([] ++ (0, 100) :: [(30, 110), (61, 121)]) 61 60 =
        some ((121 - 100) / 100 * 100)) := by
  refine ⟨⟨by norm_num, ?_⟩, ⟨by norm_num, ?_⟩⟩
  · exact (C2_change_over [(0, 100)] [] [] 61 60 0 0 0 0).1 (by norm_num)
  · exact (C2_change_over ([] ++ (0, 100) :: [(30, 110), (61, 121)]) []
      [(30, 110), (61, 121)] 61 60 0 100 61 121).2.2.1 (by norm_num) (by rfl)
      (by norm_num) (by norm_num)

/-- C3 — counterexample: `stop()` does not clear the history buffer.  On a
stream running for `"ethusdt"` whose buffer holds one sample, the state
returned by `PriceStream.stop` still holds that sample, so `get_series()`
is not `([], [])` immediately after `stop()` returns (nothing in
`PriceStream.stop` or `WebSocketManager.stop` touches the buffer; only
`start` clears it). -/
theorem C3_counterexample :
    (PriceStream.stop
        { max_points := 300, price_data := [(0, 100)],
          current_symbol := some "ethusdt", running := true,
          websocket := true, stop_set := false }).price_data = [(0, 100)] ∧
    (PriceStream.stop
        { max_points := 300, price_data := [(0, 100)],
          current_symbol := some "ethusdt", running := true,
          websocket := true, stop_set := false }).get_series ≠ ([], []) := by
  constructor
  · rfl
  · simp [PriceStream.stop, PriceStream.get_series]

/-- C3 (amended) — a new session starts with an empty buffer: `start(s2)`
clears the buffer before launching the new session, so immediately after a
symbol switch (and before any message of the new session) `get_series()`
returns `([], [])`; `stop()` however leaves the buffer untouched, the old
samples remaining until the next `start`.  Both modules behave alike. -/
theorem C3_symbol_switch_clears (s : PriceStream) (s1 s2 : String)
    (m : WSManager) (m1 m2 : String) (now : ℚ)
    (_hrun : s.running = true) (hsym : s.current_symbol = some s1)
    (hne : s1 ≠ s2)
    (_hmrun : m.running = true)
    (hmsym : m.connection_state.symbol = some m1)
    (hmne : m1 ≠ pyLower m2) :
    (s.start s2).price_data = [] ∧
    (s.start s2).get_series = ([], []) ∧
    s.stop.price_data = s.price_data ∧
    (m.start m2 now).price_history = [] ∧
    (m.start m2 now).get_series = ([], []) ∧
    m.stop.price_history = m.price_history := by
  have hguard : ¬ (s.running = true ∧ s.current_symbol = some s2) := by
    rintro ⟨-, h⟩
    rw [hsym, Option.some_inj] at h
    exact hne h
  have hmguard : ¬ (m.running = true ∧
      m.connection_state.symbol = some (pyLower m2)) := by
    rintro ⟨-, h⟩
    rw [hmsym, Option.some_inj] at h
    exact hmne h
  refine ⟨?_, ?_, ?_, ?_, ?_, ?_⟩
  · rw [PriceStream.start, if_neg hguard]
  · rw [PriceStream.start, if_neg hguard, PriceStream.get_series]
    simp
  · rw [PriceStream.stop]
    split <;> rfl
  · rw [WSManager.start, if_neg hmguard]
  · rw [WSManager.start, if_neg hmguard, WSManager.get_series]
    simp
  · rw [WSManager.stop]
    split <;> rfl

/-- C3 — witness: the amended theorem applied to a stream running for
`"ethusdt"` with one buffered sample that is switched to `"btcusdt"`, and
to a manager in the analogous state. -/
theorem C3_symbol_switch_clears_witness :
    (PriceStream.start
        { max_points := 300, price_data := [(0, 100)],
          current_symbol := some "ethusdt", running := true,
          websocket := true, stop_set := false } "btcusdt").get_series =
      ([], []) ∧
    (WSManager.start
        { max_price_history := 600, price_history := [(0, 100)],
          current_price := some 100,
          connection_state :=
            { status := "Connected", symbol := some "ethusdt",
              last_update := 0, error_count := 0 },
          websocket := true, running := true, message_count := 7,
          start_time := 0, stop_set := false } "btcusdt" 5).get_series =
      ([], []) := by
  have h := C3_symbol_switch_clears
    { max_points := 300, price_data := [(0, 100)],
      current_symbol := some "ethusdt", running := true,
      websocket := true, stop_set := false } "ethusdt" "btcusdt"
    { max_price_history := 600, price_history := [(0, 100)],
      current_price := some 100,
      connection_state :=
        { status := "Connected", symbol := some "ethusdt",
          last_update := 0, error_count := 0 },
      websocket := true, running := true, message_count := 7,
      start_time := 0, stop_set := false } "ethusdt" "btcusdt" 5
    rfl rfl (by simp) rfl rfl (by decide)
  exact ⟨h.2.1, h.2.2.2.2.1⟩

/-- C6 — counterexample: `PriceStream.start` compares symbols with plain
string equality (`self.running and self.current_symbol == symbol`), not
case-insensitively.  Starting `"btcusdt"` on a stream already running for
`"BTCUSDT"` — the same symbol up to case — is not a no-op: it restarts the
session, clearing the buffer and rewriting `current_symbol`. -/
theorem C6_counterexample :
    pyLower "BTCUSDT" = pyLower "btcusdt" ∧
    (PriceStream.start
        { max_points := 300, price_data := [(0, 100)],
          current_symbol := some "BTCUSDT", running := true,
          websocket := true, stop_set := false } "btcusdt").price_data = [] ∧
    (PriceStream.start
        { max_points := 300, price_data := [(0, 100)],
          current_symbol := some "BTCUSDT", running := true,
          websocket := true, stop_set := false } "btcusdt").current_symbol =
      some "btcusdt" := by
  refine ⟨by decide, ?_, ?_⟩ <;>
    rw [PriceStream.start, if_neg (by rintro ⟨-, h⟩; exact absurd h (by decide))]

/-- C6 (amended) — same-symbol `start` is a no-op, but the comparison is
case-insensitive only in `WebSocketManager` (which stores and compares
lower-cased symbols); `PriceStream` compares the raw strings, so its
`start` is a no-op exactly for the identical symbol string. -/
theorem C6_same_symbol_noop (m : WSManager) (sym : String) (now : ℚ)
    (s : PriceStream) (sym2 : String)
    (hm : m.running = true)
    (hmsym : m.connection_state.symbol = some (pyLower sym))
    (hs : s.running = true) (hssym : s.current_symbol = some sym2) :
    m.start sym now = m ∧ s.start sym2 = s := by
  constructor
  · rw [WSManager.start, if_pos ⟨hm, hmsym⟩]
  · rw [PriceStream.start, if_pos ⟨hs, hssym⟩]

/-- C6 — witness: a manager already running for `"btcusdt"` is unchanged by
`start("BTCUSDT")` (lower-casing makes the guard match), and a stream
already running for `"BTCUSDT"` is unchanged by `start("BTCUSDT")`. -/
theorem C6_same_symbol_noop_witness :
    (WSManager.start
        { max_price_history := 600, price_history := [(0, 100)],
          current_price := some 100,
          connection_state :=
            { status := "Connected", symbol := some "btcusdt",
              last_update := 0, error_count := 0 },
          websocket := true, running := true, message_count := 7,
          start_time := 0, stop_set := false } "BTCUSDT" 5) =
      { max_price_history := 600, price_history := [(0, 100)],
        current_price := some 100,
        connection_state :=
          { status := "Connected", symbol := some "btcusdt",
            last_update := 0, error_count := 0 },
        websocket := true, running := true, message_count := 7,
        start_time := 0, stop_set := false } ∧
    (PriceStream.start
        { max_points := 300, price_data := [(0, 100)],
          current_symbol := some "BTCUSDT", running := true,
          websocket := true, stop_set := false } "BTCUSDT") =
      { max_points := 300, price_data := [(0, 100)],
        current_symbol := some "BTCUSDT", running := true,
        websocket := true, stop_set := false } :=
  C6_same_symbol_noop
    { max_price_history := 600, price_history := [(0, 100)],
      current_price := some 100,
      connection_state :=
        { status := "Connected", symbol := some "btcusdt",
          last_update := 0, error_count := 0 },
      websocket := true, running := true, message_count := 7,
      start_time := 0, stop_set := false } "BTCUSDT" 5
    { max_points := 300, price_data := [(0, 100)],
      current_symbol := some "BTCUSDT", running := true,
      websocket := true, stop_set := false } "BTCUSDT"
    rfl (by decide) rfl rfl

lemma wsm_stop_running (m : WSManager) : m.stop.running = false := by
  rw [WSManager.stop]
  split
  · rename_i h
    exact h
  · rfl

lemma wsm_stop_of_stopped (m : WSManager) (h : m.running = false) :
    m.stop = m := by
  rw [WSManager.stop, if_pos h]

lemma ps_stop_running (s : PriceStream) : s.stop.running = false := by
  rw [PriceStream.stop]
  split
  · rename_i h
    exact h
  · rfl

lemma ps_stop_of_stopped (s : PriceStream) (h : s.running = false) :
    s.stop = s := by
  rw [PriceStream.stop, if_pos h]

/-- C7 — idempotent, immediately visible `stop`: for both modules `stop` is
idempotent as a state transformer and, on any state satisfying the
stopped-state invariant (a non-running instance shows
`status = "Disconnected"` and no symbol — true of freshly constructed
instances and of every state `stop` itself produces), a call to `stop`
leaves `status = "Disconnected"` and `current_symbol = None`.  The embedded
`stop` returns without interacting with the background thread, matching the
non-blocking signal in the source. -/
theorem C7_stop_idempotent :
    (∀ m : WSManager, m.stop.stop = m.stop) ∧
    (∀ m : WSManager,
      (m.running = false →
        m.connection_state.status = "Disconnected" ∧
        m.connection_state.symbol = none) →
      m.stop.connection_state.status = "Disconnected" ∧
      m.stop.connection_state.symbol = none) ∧
    (∀ s : PriceStream, s.stop.stop = s.stop) ∧
    (∀ s : PriceStream,
      (s.running = false → s.current_symbol = none) →
      s.stop.current_symbol = none) := by
  refine ⟨?_, ?_, ?_, ?_⟩
  · intro m
    exact wsm_stop_of_stopped _ (wsm_stop_running m)
  · intro m h
    rw [WSManager.stop]
    split
    · rename_i hr
      exact h hr
    · exact ⟨rfl, rfl⟩
  · intro s
    exact ps_stop_of_stopped _ (ps_stop_running s)
  · intro s h
    rw [PriceStream.stop]
    split
    · rename_i hr
      exact h hr
    · rfl

/-- C7 — witness: two consecutive `stop` calls on a manager running for
`"btcusdt"` and on a stream running for `"btcusdt"`: the first call already
shows `Disconnected` with no symbol, and the second changes nothing. -/
theorem C7_stop_idempotent_witness :
    (WSManager.stop (WSManager.stop
        { max_price_history := 600, price_history := [(0, 100)],
          current_price := some 100,
          connection_state :=
            { status := "Connected", symbol := some "btcusdt",
              last_update := 0, error_count := 0 },
          websocket := true, running := true, message_count := 7,
          start_time := 0, stop_set := false })) =
      WSManager.stop
        { max_price_history := 600, price_history := [(0, 100)],
          current_price := some 100,
          connection_state :=
            { status := "Connected", symbol := some "btcusdt",
              last_update := 0, error_count := 0 },
          websocket := true, running := true, message_count := 7,
          start_time := 0, stop_set := false } ∧
    (WSManager.stop
        { max_price_history := 600, price_history := [(0, 100)],
          current_price := some 100,
          connection_state :=
            { status := "Connected", symbol := some "btcusdt",
              last_update := 0, error_count := 0 },
          websocket := true, running := true, message_count := 7,
          start_time := 0, stop_set := false }).connection_state.status =
      "Disconnected" ∧
    (WSManager.stop
        { max_price_history := 600, price_history := [(0, 100)],
          current_price := some 100,
          connection_state :=
            { status := "Connected", symbol := some "btcusdt",
              last_update := 0, error_count := 0 },
          websocket := true, running := true, message_count := 7,
          start_time := 0, stop_set := false }).connection_state.symbol =
      none := by
  refine ⟨C7_stop_idempotent.1 _, ?_⟩
  have h := C7_stop_idempotent.2.1
    { max_price_history := 600, price_history := [(0, 100)],
      current_price := some 100,
      connection_state :=
        { status := "Connected", symbol := some "btcusdt",
          last_update := 0, error_count := 0 },
      websocket := true, running := true, message_count := 7,
      start_time := 0, stop_set := false } (fun hr => nomatch hr)
  exact h

lemma wsm_stop_current_price (m : WSManager) :
    m.stop.current_price = m.current_price := by
  rw [WSManager.stop]
  split <;> rfl

lemma wsm_runMessages_characterisation (m : WSManager) (sym : String)
    (now : ℚ) (fs : List Frame) (hr : m.running = true)
    (hs : m.stop_set = false)
    (hnc : ∀ f ∈ fs, parseFrame f ≠ ParseResult.uncaught) :
    (m.runMessages sym now fs).connection_state.error_count =
      m.connection_state.error_count ∧
    (m.runMessages sym now fs).price_history =
      (okSamples fs).foldl (dequeAppend m.max_price_history)
        m.price_history := by
  induction fs generalizing m with
  | nil => exact ⟨rfl, rfl⟩
  | cons f rest ih =>
      have hrest : ∀ g ∈ rest, parseFrame g ≠ ParseResult.uncaught :=
        fun g hg => hnc g (List.mem_cons_of_mem f hg)
      rw [WSManager.runMessages, if_neg (by simp [hr, hs])]
      cases hp : parseFrame f with
      | caught =>
          simpa [okSamples, List.filterMap_cons, hp] using ih m hr hs hrest
      | uncaught =>
          exact absurd hp (hnc f (List.mem_cons_self f rest))
      | ok sample =>
          have h := ih
            { m with
              current_price := some sample.2
              price_history :=
                dequeAppend m.max_price_history m.price_history sample
              message_count := m.message_count + 1
              connection_state :=
                { m.connection_state with last_update := now } } hr hs hrest
          simpa [okSamples, List.filterMap_cons, hp] using h

lemma ps_runMessages_characterisation (s : PriceStream)
    (sym : String) (fs : List Frame) (hr : s.running = true)
    (hs : s.stop_set = false) (hsym : s.current_symbol = some sym)
    (hnc : ∀ f ∈ fs, parseFrame f ≠ ParseResult.uncaught) :
    (s.runMessages sym fs).price_data =
      (okSamples fs).foldl (dequeAppend s.max_points)
        s.price_data := by
  induction fs generalizing s with
  | nil => rfl
  | cons f rest ih =>
      have hrest : ∀ g ∈ rest, parseFrame g ≠ ParseResult.uncaught :=
        fun g hg => hnc g (List.mem_cons_of_mem f hg)
      rw [PriceStream.runMessages, if_neg (by simp [hr, hs]),
        if_neg (by simp [hsym])]
      cases hp : parseFrame f with
      | caught =>
          simpa [okSamples, List.filterMap_cons, hp] using ih s hr hs hsym hrest
      | uncaught =>
          exact absurd hp (hnc f (List.mem_cons_self f rest))
      | ok sample =>
          have h := ih
            { s with
              price_data := dequeAppend s.max_points s.price_data sample }
            hr hs hsym hrest
          simpa [okSamples, List.filterMap_cons, hp] using h

lemma wsm_runMessages_break (m : WSManager) (sym : String) (now : ℚ)
    (pre : List Frame) (f : Frame) (post : List Frame)
    (hf : parseFrame f = ParseResult.uncaught) :
    m.runMessages sym now (pre ++ f :: post) =
      m.runMessages sym now pre := by
  induction pre generalizing m with
  | nil =>
      rw [List.nil_append, WSManager.runMessages, WSManager.runMessages]
      by_cases hg : m.running = false ∨ m.stop_set = true
      · rw [if_pos hg]
      · rw [if_neg hg, hf]
  | cons g pre ih =>
      by_cases hg : m.running = false ∨ m.stop_set = true
      · rw [List.cons_append, WSManager.runMessages, if_pos hg,
          WSManager.runMessages, if_pos hg]
      · rw [List.cons_append, WSManager.runMessages, if_neg hg]
        conv_rhs => rw [WSManager.runMessages]
        rw [if_neg hg]
        cases hp : parseFrame g with
        | caught => exact ih m
        | uncaught => rfl
        | ok sample => exact ih _

lemma ps_runMessages_break (s : PriceStream) (sym : String)
    (pre : List Frame) (f : Frame) (post : List Frame)
    (hf : parseFrame f = ParseResult.uncaught) :
    s.runMessages sym (pre ++ f :: post) = s.runMessages sym pre := by
  induction pre generalizing s with
  | nil =>
      rw [List.nil_append, PriceStream.runMessages, PriceStream.runMessages]
      by_cases hg : s.running = false ∨ s.stop_set = true
      · rw [if_pos hg]
      · rw [if_neg hg]
        by_cases hsy : s.current_symbol ≠ some sym
        · rw [if_pos hsy]
        · rw [if_neg hsy, hf]
  | cons g pre ih =>
      by_cases hg : s.running = false ∨ s.stop_set = true
      · rw [List.cons_append, PriceStream.runMessages, if_pos hg,
          PriceStream.runMessages, if_pos hg]
      · by_cases hsy : s.current_symbol ≠ some sym
        · rw [List.cons_append, PriceStream.runMessages, if_neg hg,
            if_pos hsy, PriceStream.runMessages, if_neg hg, if_pos hsy]
        · rw [List.cons_append, PriceStream.runMessages, if_neg hg,
            if_neg hsy]
          conv_rhs => rw [PriceStream.runMessages]
          rw [if_neg hg, if_neg hsy]
          cases hp : parseFrame g with
          | caught => exact ih s
          | uncaught => rfl
          | ok sample => exact ih _

/-- C5 — counterexample: in `WebSocketManager._message_handler` no guard
compares the symbol the connection was opened for against the symbol the
manager currently wants.  With the manager wanting `"btcusdt"` (a switch
away from `"ethusdt"` already recorded), the running flag set and the stop
event unset — the state of the handler of a not-yet-unwound `"ethusdt"`
connection once the replacement session has started — a valid frame from
the stale `"ethusdt"` connection is parsed and appended to the (new,
empty) buffer. -/
theorem C5_counterexample :
    (some "btcusdt" : Option String) ≠ some "ethusdt" ∧
    (WSManager.runMessages
        { max_price_history := 600, price_history := [],
          current_price := none,
          connection_state :=
            { status := "Connected", symbol := some "btcusdt",
              last_update := 0, error_count := 0 },
          websocket := true, running := true, message_count := 0,
          start_time := 0, stop_set := false } "ethusdt" 5
        [Frame.obj (some (PField.parseable 50000)) (some 2000)]).price_history =
      [(2, 50000)] := by
  constructor
  · decide
  · norm_num [WSManager.runMessages, parseFrame, dequeAppend]

/-- C5 (amended) — no stale delivery holds for `PriceStream`: its receive
loop checks `self.current_symbol != symbol` before parsing, so once a
symbol switch is recorded every further message of the old connection is
dropped and the loop exits, leaving the state untouched.
`WebSocketManager._message_handler`, in contrast, guards only on the
running flag and the stop event, never on the symbol, so a message of the
old connection that is processed while the running flag is set and the
stop event unset (as after the replacement session has started) is
appended to the buffer despite the symbol mismatch. -/
theorem C5_no_stale_delivery :
    (∀ (s : PriceStream) (sym : String) (fs : List Frame),
      s.current_symbol ≠ some sym → s.runMessages sym fs = s) ∧
    (∀ (m : WSManager) (conn_sym : String) (now : ℚ) (f : Frame)
        (sample : Sample),
      m.running = true → m.stop_set = false →
      m.connection_state.symbol ≠ some conn_sym →
      parseFrame f = ParseResult.ok sample →
      (m.runMessages conn_sym now [f]).price_history =
        dequeAppend m.max_price_history m.price_history sample) := by
  constructor
  · intro s sym fs hne
    cases fs with
    | nil => rfl
    | cons f rest =>
        rw [PriceStream.runMessages]
        by_cases hg : s.running = false ∨ s.stop_set = true
        · rw [if_pos hg]
        · rw [if_neg hg, if_pos hne]
  · intro m conn_sym now f sample hr hs _hne hp
    rw [WSManager.runMessages, if_neg (by simp [hr, hs]), hp]
    rfl

/-- C5 — witness: the amended theorem applied to a stream whose
`current_symbol` is already `"btcusdt"` while the connection still runs
for `"ethusdt"` (the frame is dropped and the state unchanged), and to a
manager in the post-switch window (the frame is appended). -/
theorem C5_no_stale_delivery_witness :
    (PriceStream.runMessages
        { max_points := 300, price_data := [],
          current_symbol := some "btcusdt", running := true,
          websocket := true, stop_set := false } "ethusdt"
        [Frame.obj (some (PField.parseable 50000)) (some 2000)]) =
      { max_points := 300, price_data := [],
        current_symbol := some "btcusdt", running := true,
        websocket := true, stop_set := false } ∧
    (WSManager.runMessages
        { max_price_history := 600, price_history := [],
          current_price := none,
          connection_state :=
            { status := "Connected", symbol := some "btcusdt",
              last_update := 0, error_count := 0 },
          websocket := true, running := true, message_count := 0,
          start_time := 0, stop_set := false } "ethusdt" 5
        [Frame.obj (some (PField.parseable 50000)) (some 2000)]).price_history =
      dequeAppend 600 [] (2, 50000) := by
  constructor
  · exact C5_no_stale_delivery.1
      { max_points := 300, price_data := [],
        current_symbol := some "btcusdt", running := true,
        websocket := true, stop_set := false } "ethusdt"
      [Frame.obj (some (PField.parseable 50000)) (some 2000)]
      (by simp)
  · exact C5_no_stale_delivery.2
      { max_price_history := 600, price_history := [],
        current_price := none,
        connection_state :=
          { status := "Connected", symbol := some "btcusdt",
            last_update := 0, error_count := 0 },
        websocket := true, running := true, message_count := 0,
        start_time := 0, stop_set := false } "ethusdt" 5
      (Frame.obj (some (PField.parseable 50000)) (some 2000)) (2, 50000)
      rfl rfl (by simp) (by norm_num [parseFrame])

/-- C8 — counterexample: a frame whose `"p"` field is a non-string
non-numeric JSON value (e.g. `null`) is malformed in the claimed sense
(non-numeric price), yet its `float` raises `TypeError`, which is not in
the caught tuple: `WebSocketManager._message_handler` catches it with
`except Exception` and `break`s.  Processing such a frame followed by a
perfectly valid one leaves the buffer empty — the receive loop terminated
and the subsequent valid frame was never parsed or appended, contradicting
the claim. -/
theorem C8_counterexample :
    parseFrame (Frame.obj (some PField.typeErr) (some 2000)) =
      ParseResult.uncaught ∧
    parseFrame (Frame.obj (some (PField.parseable 50100)) (some 3000)) =
      ParseResult.ok (3, 50100) ∧
    (WSManager.runMessages
        { max_price_history := 600, price_history := [],
          current_price := none,
          connection_state :=
            { status := "Connected", symbol := some "btcusdt",
              last_update := 0, error_count := 0 },
          websocket := true, running := true, message_count := 0,
          start_time := 0, stop_set := false } "btcusdt" 9
        [Frame.obj (some PField.typeErr) (some 2000),
          Frame.obj (some (PField.parseable 50100)) (some 3000)]
      ).price_history = [] := by
  refine ⟨rfl, ?_, rfl⟩
  norm_num [parseFrame]

/-- C8 (amended) — malformed frames raising one of the caught exceptions
(unparseable JSON, missing `"p"` or `"T"`, a price string `float` rejects
with `ValueError`) are logged and skipped: over any frame list free of
uncaught-error frames, and with the session running and no stop requested,
both receive loops leave `error_count` untouched and produce exactly the
buffer obtained by appending the successfully parsed frames in order, so
every subsequent valid frame is still appended.  A frame whose processing
raises `TypeError` (a `null`/array/object price, or JSON-parseable
non-object data), however, terminates the receive loop where it occurs —
via `except Exception: break` in `WebSocketManager._message_handler`, and
by propagating into the connection-error path in
`PriceStream._connect_and_stream` — leaving the state as it stood and
dropping all later frames of that connection. -/
theorem C8_malformed_resilience :
    (∀ (m : WSManager) (sym : String) (now : ℚ) (fs : List Frame),
      m.running = true → m.stop_set = false →
      (∀ f ∈ fs, parseFrame f ≠ ParseResult.uncaught) →
      (m.runMessages sym now fs).connection_state.error_count =
        m.connection_state.error_count ∧
      (m.runMessages sym now fs).price_history =
        (okSamples fs).foldl (dequeAppend m.max_price_history)
          m.price_history) ∧
    (∀ (s : PriceStream) (sym : String) (fs : List Frame),
      s.running = true → s.stop_set = false →
      s.current_symbol = some sym →
      (∀ f ∈ fs, parseFrame f ≠ ParseResult.uncaught) →
      (s.runMessages sym fs).price_data =
        (okSamples fs).foldl (dequeAppend s.max_points) s.price_data) ∧
    (∀ (m : WSManager) (sym : String) (now : ℚ) (pre : List Frame)
        (f : Frame) (post : List Frame),
      parseFrame f = ParseResult.uncaught →
      m.runMessages sym now (pre ++ f :: post) =
        m.runMessages sym now pre) ∧
    (∀ (s : PriceStream) (sym : String) (pre : List Frame) (f : Frame)
        (post : List Frame),
      parseFrame f = ParseResult.uncaught →
      s.runMessages sym (pre ++ f :: post) = s.runMessages sym pre) :=
  ⟨fun m sym now fs hr hs hnc =>
      wsm_runMessages_characterisation m sym now fs hr hs hnc,
    fun s sym fs hr hs hsym hnc =>
      ps_runMessages_characterisation s sym fs hr hs hsym hnc,
    fun m sym now pre f post hf =>
      wsm_runMessages_break m sym now pre f post hf,
    fun s sym pre f post hf =>
      ps_runMessages_break s sym pre f post hf⟩

/-- C8 — witness: a valid frame, then three caught-malformed frames (bad
JSON, a missing price field, a `float`-rejected price string), then
another valid frame: `error_count` stays 0 and the buffer receives exactly
the two valid samples, in order; and for a list whose third frame carries
a `null`-like price, the loop stops right there. -/
theorem C8_malformed_resilience_witness :
    (∀ f ∈ [Frame.obj (some (PField.parseable 50000)) (some 2000),
        Frame.badJson,
        Frame.obj none (some 2500),
        Frame.obj (some PField.badStr) (some 2600),
        Frame.obj (some (PField.parseable 50100)) (some 3000)],
      parseFrame f ≠ ParseResult.uncaught) ∧
    (WSManager.runMessages
        { max_price_history := 600, price_history := [],
          current_price := none,
          connection_state :=
            { status := "Connected", symbol := some "btcusdt",
              last_update := 0, error_count := 0 },
          websocket := true, running := true, message_count := 0,
          start_time := 0, stop_set := false } "btcusdt" 9
        [Frame.obj (some (PField.parseable 50000)) (some 2000),
          Frame.badJson,
          Frame.obj none (some 2500),
          Frame.obj (some PField.badStr) (some 2600),
          Frame.obj (some (PField.parseable 50100)) (some 3000)]
      ).connection_state.error_count = 0 ∧
    (WSManager.runMessages
        { max_price_history := 600, price_history := [],
          current_price := none,
          connection_state :=
            { status := "Connected", symbol := some "btcusdt",
              last_update := 0, error_count := 0 },
          websocket := true, running := true, message_count := 0,
          start_time := 0, stop_set := false } "btcusdt" 9
        [Frame.obj (some (PField.parseable 50000)) (some 2000),
          Frame.badJson,
          Frame.obj none (some 2500),
          Frame.obj (some PField.badStr) (some 2600),
          Frame.obj (some (PField.parseable 50100)) (some 3000)]
      ).price_history = [(2, 50000), (3, 50100)] ∧
    (WSManager.runMessages
        { max_price_history := 600, price_history := [],
          current_price := none,
          connection_state :=
            { status := "Connected", symbol := some "btcusdt",
              last_update := 0, error_count := 0 },
          websocket := true, running := true, message_count := 0,
          start_time := 0, stop_set := false } "btcusdt" 9
        ([Frame.obj (some (PField.parseable 50000)) (some 2000),
          Frame.badJson] ++ Frame.obj (some PField.typeErr) none ::
          [Frame.obj (some (PField.parseable 50100)) (some 3000)])) =
      WSManager.runMessages
        { max_price_history := 600, price_history := [],
          current_price := none,
          connection_state :=
            { status := "Connected", symbol := some "btcusdt",
              last_update := 0, error_count := 0 },
          websocket := true, running := true, message_count := 0,
          start_time := 0, stop_set := false } "btcusdt" 9
        [Frame.obj (some (PField.parseable 50000)) (some 2000),
          Frame.badJson] := by
  have h := C8_malformed_resilience.1
    { max_price_history := 600, price_history := [],
      current_price := none,
      connection_state :=
        { status := "Connected", symbol := some "btcusdt",
          last_update := 0, error_count := 0 },
      websocket := true, running := true, message_count := 0,
      start_time := 0, stop_set := false } "btcusdt" 9
    [Frame.obj (some (PField.parseable 50000)) (some 2000),
      Frame.badJson,
      Frame.obj none (some 2500),
      Frame.obj (some PField.badStr) (some 2600),
      Frame.obj (some (PField.parseable 50100)) (some 3000)] rfl rfl
    (by decide)
  refine ⟨by decide, h.1, ?_, ?_⟩
  · rw [h.2]
    norm_num [okSamples, parseFrame, dequeAppend, List.filterMap_cons,
      List.foldl]
  · exact C8_malformed_resilience.2.2.1
      { max_price_history := 600, price_history := [],
        current_price := none,
        connection_state :=
          { status := "Connected", symbol := some "btcusdt",
            last_update := 0, error_count := 0 },
        websocket := true, running := true, message_count := 0,
        start_time := 0, stop_set := false } "btcusdt" 9
      [Frame.obj (some (PField.parseable 50000)) (some 2000),
        Frame.badJson] (Frame.obj (some PField.typeErr) none)
      [Frame.obj (some (PField.parseable 50100)) (some 3000)] rfl

/-- C9 — reads before any `start` (or before any data): on freshly
constructed instances of either module, `get_latest_price()` is `None`,
`get_series()` is `([], [])`, and `get_price_change(window_seconds)` is
`None` for every window and clock value; no accessor raises. -/
theorem C9_reads_before_start (N : ℕ) (now w t : ℚ) :
    (PriceStream.init N).get_latest_price = none ∧
    (PriceStream.init N).get_series = ([], []) ∧
    (PriceStream.init N).get_price_change now w = none ∧
    (WSManager.init N t).get_latest_price = none ∧
    (WSManager.init N t).get_series = ([], []) :=
  ⟨rfl, rfl, rfl, rfl, rfl⟩

/-- C10 — the `_current_price` cache survives `stop` and `start`: neither
method writes it, and `get_latest_price()` reads the cache rather than the
history buffer, so after `stop()` — and after a symbol switch, before any
message of the new session — `get_latest_price()` still returns the last
price of the previous session while `get_series()` already returns
`([], [])`. -/
theorem C10_stale_price_cache (m : WSManager) (sym : String) (now p : ℚ)
    (hp : m.current_price = some p)
    (hswitch : ¬ (m.running = true ∧
      m.connection_state.symbol = some (pyLower sym))) :
    m.stop.current_price = some p ∧
    (m.start sym now).get_latest_price = some p ∧
    (m.start sym now).get_series = ([], []) ∧
    ((m.stop).start sym now).get_latest_price = some p ∧
    ((m.stop).start sym now).get_series = ([], []) := by
  have hstop : m.stop.current_price = some p := by
    rw [wsm_stop_current_price, hp]
  have hstopguard : ¬ (m.stop.running = true ∧
      m.stop.connection_state.symbol = some (pyLower sym)) := by
    rintro ⟨h, -⟩
    rw [wsm_stop_running] at h
    cases h
  refine ⟨hstop, ?_, ?_, ?_, ?_⟩
  · rw [WSManager.start, if_neg hswitch, WSManager.get_latest_price]
    exact hstop
  · rw [WSManager.start, if_neg hswitch, WSManager.get_series]
    simp
  · rw [WSManager.start, if_neg hstopguard, WSManager.get_latest_price]
    show m.stop.stop.current_price = some p
    rw [wsm_stop_of_stopped _ (wsm_stop_running m)]
    exact hstop
  · rw [WSManager.start, if_neg hstopguard, WSManager.get_series]
    simp

/-- C10 — witness: a manager running for `"ethusdt"` with cached price
50000 and a non-empty buffer, switched to `"BTCUSDT"`: the latest price
survives as 50000 both straight after the switch and after
`stop(); start(...)`, while `get_series()` is `([], [])`. -/
theorem C10_stale_price_cache_witness :
    (WSManager.start
        { max_price_history := 600, price_history := [(1, 50000)],
          current_price := some 50000,
          connection_state :=
            { status := "Connected", symbol := some "ethusdt",
              last_update := 0, error_count := 0 },
          websocket := true, running := true, message_count := 3,
          start_time := 0, stop_set := false } "BTCUSDT" 9
      ).get_latest_price = some 50000 ∧
    (WSManager.start
        { max_price_history := 600, price_history := [(1, 50000)],
          current_price := some 50000,
          connection_state :=
            { status := "Connected", symbol := some "ethusdt",
              last_update := 0, error_count := 0 },
          websocket := true, running := true, message_count := 3,
          start_time := 0, stop_set := false } "BTCUSDT" 9
      ).get_series = ([], []) := by
  have h := C10_stale_price_cache
    { max_price_history := 600, price_history := [(1, 50000)],
      current_price := some 50000,
      connection_state :=
        { status := "Connected", symbol := some "ethusdt",
          last_update := 0, error_count := 0 },
      websocket := true, running := true, message_count := 3,
      start_time := 0, stop_set := false } "BTCUSDT" 9 50000 rfl
    (by rintro ⟨-, hsy⟩; exact absurd hsy (by decide))
  exact ⟨h.2.1, h.2.2.1⟩

end CryptoDash
